import Mathlib

/-!
# Verification of the Pdm-AI-Engine decision path

Shallow embedding of the decision engine (`src/ai_api.py`, `predict_health`),
the online feature engine (`src/db_poll_client.py`, `FeatureEngineer`) and the
streaming connector's cursor / write-back logic (`src/db_poll_client.py`,
`poll_and_process`), together with proofs of the specified properties.

Numeric values are modelled over `ℚ`; the classifier models are opaque
artifacts and are modelled as oracles whose calls may succeed or raise.
-/

namespace PdmAI

/-- The request payload of `POST /predict` (`class SensorData` in
`src/ai_api.py`).  Field defaults follow the pydantic model. -/
structure SensorData where
  pressure : ℚ
  drift : ℚ
  r2 : ℚ
  temp : ℚ
  scan_speed : ℚ
  flow : ℚ := 120
  machine_state : String := "UNKNOWN"
deriving DecidableEq, Repr

/-- Outcome of one opaque classifier call: either a value or a raised
exception carrying a message. -/
def CallResult (α : Type) := Except String α

/-- Oracle for the two loaded model artifacts on a given feature row:
`predict_proba`/`predict` of the XGBoost (primary) model and of the
random-forest (secondary) model.  Each call may raise. -/
structure ModelOracle where
  xgbProb : Except String ℚ
  xgbPred : Except String ℤ
  rfProb : Except String ℚ
  rfPred : Except String ℤ

/-- The JSON body of a successful verdict response.  The free-text
`message` field is not modelled (no claim concerns its contents);
fields absent from a given branch of the source are `none`. -/
structure Verdict where
  status : String
  risk_score : ℚ
  confidence : Option ℚ := none
  rca : Option String := none
  drift_velocity : Option ℚ := none
deriving DecidableEq, Repr

/-- What `predict_health` delivers to its caller: a normal JSON return
(`ok`), the explicit `{"error": ...}` return of the `try/except` around the
primary-model calls (`errorResult`), or an exception propagating out of the
function body unhandled (`raised`). -/
inductive ApiResult where
  | ok : Verdict → ApiResult
  | errorResult : String → ApiResult
  | raised : String → ApiResult
deriving DecidableEq, Repr

/-- `valid_states = ["QUENCH", "COMPLETED"]` from `predict_health`. -/
def valid_states : List String := ["QUENCH", "COMPLETED"]

/-- State normalization: `data.machine_state.upper().strip()` — upper-case
every character, then drop leading and trailing whitespace.  Modelled on the
character list of the string so that it evaluates by kernel reduction. -/
def normalizeState (s : String) : String :=
  ⟨((((s.data.map Char.toUpper).dropWhile Char.isWhitespace).reverse.dropWhile
      Char.isWhitespace).reverse)⟩

/-- The deadband of Guardrail 2 in `predict_health`:
`0.0 if abs(data.drift) < 0.005 else data.drift`. -/
def deadband (drift : ℚ) : ℚ := if |drift| < 5/1000 then 0 else drift

/-- The gradual drift-based risk of `predict_health` (lines 104-113):
piecewise map from (post-deadband) drift velocity to a risk in `[0,1]`. -/
def driftRisk (d : ℚ) : ℚ :=
  if d ≥ -(1/100) then 0
  else if d ≥ -(5/100) then (|d| - 1/100) / (4/100) * (1/2)
  else if d ≥ -(1/10) then 1/2 + (|d| - 5/100) / (5/100) * (1/2)
  else 1

/-- The blended risk of `predict_health` (line 117):
`max(xgb_prob, drift_risk * 0.8 + xgb_prob * 0.2)`. -/
def blendedRisk (p d : ℚ) : ℚ := max p (driftRisk d * (8/10) + p * (2/10))

/-- Shallow embedding of `predict_health` (`src/ai_api.py`, lines 40-156).
The model artifacts' behaviour on the one-row dataframe built from `data`
is supplied by the oracle `m`. -/
def predict_health (data : SensorData) (m : ModelOracle) : ApiResult :=
  -- GUARDRAIL 1: safety interlocks (context awareness)
  let current_state := normalizeState data.machine_state
  if current_state ∉ valid_states ∧ data.pressure < 1 then
    .ok { status := "STANDBY", risk_score := 0, confidence := some 0 }
  else if data.pressure < 1/2 then
    -- warm-up check: machine off
    .ok { status := "OFFLINE", risk_score := 99/100, confidence := some 0 }
  else
    -- GUARDRAIL 2: deadband on drift
    let drift_val := deadband data.drift
    -- step A: XGBoost calls wrapped in try/except
    match m.xgbProb with
    | .error e => .errorResult ("Inference Failed: " ++ e)
    | .ok xgb_prob =>
      match m.xgbPred with
      | .error e => .errorResult ("Inference Failed: " ++ e)
      | .ok _xgb_pred =>
        let blended_risk := blendedRisk xgb_prob drift_val
        -- step B: status from the blended risk
        if blended_risk < 2/5 then
          .ok { status := "OPTIMAL", risk_score := blended_risk,
                rca := some "NONE", drift_velocity := some drift_val }
        else if blended_risk < 4/5 then
          .ok { status := "WARNING", risk_score := blended_risk,
                rca := some "EARLY_DRIFT", drift_velocity := some drift_val }
        else
          -- random-forest verification: calls NOT wrapped in try/except
          match m.rfProb with
          | .error e => .raised e
          | .ok rf_prob =>
            match m.rfPred with
            | .error e => .raised e
            | .ok rf_pred =>
              if rf_pred = 1 ∨ blended_risk > 9/10 then
                .ok { status := "CRITICAL_FAILURE",
                      risk_score := max blended_risk rf_prob,
                      rca := some "DRIFT_CONFIRMED", drift_velocity := some drift_val }
              else
                .ok { status := "WARNING", risk_score := blended_risk,
                      rca := some "EARLY_DRIFT", drift_velocity := some drift_val }

/-- Recognizer for the explicit structured error return `{"error": ...}`. -/
def ApiResult.isErrorResult : ApiResult → Bool
  | .errorResult _ => true
  | _ => false

/-- Recognizer for an exception escaping `predict_health` unhandled. -/
def ApiResult.isRaised : ApiResult → Bool
  | .raised _ => true
  | _ => false

/-!
## Spec-side description of the risk blending

For the refinement claim about the piecewise-linear risk curve, the
following definitions transcribe the SPEC's wording (§4.2, "Risk
blending"), to be compared against `driftRisk`/`blendedRisk` above. -/

/-- Linear interpolation through the points `(x0, y0)` and `(x1, y1)`,
evaluated at `x`. -/
def lerp (x x0 x1 y0 y1 : ℚ) : ℚ := y0 + (x - x0) / (x1 - x0) * (y1 - y0)

/-- The drift-risk curve exactly as the spec words it: 0 for
`drift_velocity >= -0.01`; linear interpolation from 0.0 (at -0.01) to 0.5
(at -0.05) on `[-0.05, -0.01)`; linear interpolation from 0.5 (at -0.05) to
1.0 (at -0.10) on `[-0.10, -0.05)`; and 1.0 below -0.10. -/
def specDriftRisk (d : ℚ) : ℚ :=
  if d ≥ -(1/100) then 0
  else if d ≥ -(5/100) then lerp d (-(1/100)) (-(5/100)) 0 (1/2)
  else if d ≥ -(1/10) then lerp d (-(5/100)) (-(1/10)) (1/2) 1
  else 1

/-!
## Feature engine (`src/db_poll_client.py`, `FeatureEngineer`)

The rolling window is a deque of `(timestamp_sec, pressure)` pairs with
`maxlen = WINDOW_SIZE = 20`; `calculate_features` is a pure function of the
current window contents, modelled here as a list (oldest first). -/

/-- `WINDOW_SIZE = 20` from `src/db_poll_client.py`. -/
def WINDOW_SIZE : ℕ := 20

/-- Mean of a list of rationals (`np.mean`; 0 on the empty list, which the
guarded call sites never hit). -/
def listMean (xs : List ℚ) : ℚ := xs.sum / xs.length

/-- Population variance, as computed by `np.var`. -/
def npVar (xs : List ℚ) : ℚ :=
  ((xs.map (fun x => (x - listMean xs) ^ 2)).sum) / xs.length

/-- Population covariance of two equally long lists (the numerator/denominator
pieces of `scipy.stats.linregress`). -/
def listCov (xs ys : List ℚ) : ℚ :=
  (((xs.zip ys).map (fun p => (p.1 - listMean xs) * (p.2 - listMean ys))).sum) / xs.length

/-- Shallow embedding of `FeatureEngineer.calculate_features`
(`src/db_poll_client.py`, lines 36-62).  Returns `(drift_velocity,
confidence_r2)`.  `scipy.stats.linregress` is the ordinary least-squares
`slope = cov(t, y) / var(t)` and `r² = cov(t, y)² / (var(t) · var(y))`; it
raises on constant `x` input, which the bare `except` maps to `(0.0, 0.0)`. -/
def calculate_features (history : List (ℚ × ℚ)) : ℚ × ℚ :=
  if history.length < 5 then (0, 1)
  else
    let t := history.map Prod.fst
    let y := history.map Prod.snd
    let t0 := t.headD 0
    let t_rel := t.map (fun a => (a - t0) / 60)
    if npVar y < 1/10000 then (0, 1)
    else if npVar t_rel = 0 then (0, 0)
    else (listCov t_rel y / npVar t_rel, listCov t_rel y ^ 2 / (npVar t_rel * npVar y))

/-!
## Connector write-back (`src/db_poll_client.py`, `poll_and_process`)

The telemetry store is modelled by which AI columns exist plus the rows the
connector's `UPDATE`s have persisted.  An `UPDATE` naming a missing column
raises `sqlite3.OperationalError("no such column ...")`. -/

/-- Store state: presence of the feature columns (`drift_velocity`,
`confidence_r2`), presence of the verdict columns (`ai_risk_score`,
`ai_status`), and the `(id, values)` pairs successfully persisted by the
feature and verdict `UPDATE`s respectively. -/
structure DbState where
  hasFeatureCols : Bool
  hasVerdictCols : Bool
  featureRows : List (ℤ × ℚ × ℚ)
  verdictRows : List (ℤ × ℚ × String)
deriving Repr

/-- Step B2 of the main loop (lines 208-224): `UPDATE telemetry SET
drift_velocity = ?, confidence_r2 = ? WHERE id = ?`; on a missing-column
error, `ALTER TABLE` adds both columns and the same `UPDATE` is
re-executed. -/
def featureWrite (db : DbState) (id : ℤ) (drift r2 : ℚ) : DbState :=
  if db.hasFeatureCols then
    { db with featureRows := (id, drift, r2) :: db.featureRows }
  else
    { db with hasFeatureCols := true,
              featureRows := (id, drift, r2) :: db.featureRows }

/-- Step E of the main loop (lines 253-275): the unified `UPDATE` sets
`ai_risk_score`, `ai_status`, `drift_velocity`, `confidence_r2`, so it
raises if any of the four columns is missing; the handler then runs one
guarded `ALTER TABLE ... ADD COLUMN` per column — and does NOT re-execute
the `UPDATE`. -/
def verdictWrite (db : DbState) (id : ℤ) (risk : ℚ) (status : String)
    (drift r2 : ℚ) : DbState :=
  if db.hasVerdictCols && db.hasFeatureCols then
    { db with verdictRows := (id, risk, status) :: db.verdictRows,
              featureRows := (id, drift, r2) :: db.featureRows }
  else
    { db with hasVerdictCols := true, hasFeatureCols := true }

/-!
## Connector cursor logic (`src/db_poll_client.py`, `poll_and_process`)

Rows are identified by their monotone integer `id`; each poll sees the set
of ids present in the table at that moment. -/

/-- Startup cursor resumption (lines 129-139): resume from the last id that
carries a verdict, but if the backlog exceeds 1000 rows, jump the cursor to
the newest id. -/
def resumeCursor (lastWithVerdict maxId : ℤ) : ℤ :=
  if maxId - lastWithVerdict > 1000 then maxId else lastWithVerdict

/-- One fetch of the main loop (lines 177-184):
`SELECT ... WHERE id > ? ORDER BY id ASC LIMIT 50`. -/
def fetchBatch (ids : List ℤ) (cursor : ℤ) : List ℤ :=
  ((ids.filter (fun i => decide (cursor < i))).insertionSort (· ≤ ·)).take 50

/-- Processing a batch sets `last_processed_id = row['id']` after each row
(line 291); the resulting cursor is the batch's last id (or the old cursor
for an empty batch). -/
def runBatch (cursor : ℤ) (batch : List ℤ) : ℤ :=
  batch.foldl (fun _ i => i) cursor

/-- The ids processed and the final cursor over a whole run: `polls` lists
the table contents seen at each iteration of the main loop. -/
def runPolls (cursor : ℤ) : List (List ℤ) → List ℤ × ℤ
  | [] => ([], cursor)
  | ids :: rest =>
      let batch := fetchBatch ids cursor
      let rec_result := runPolls (runBatch cursor batch) rest
      (batch ++ rec_result.1, rec_result.2)

/-!
## Concrete fixtures used in witnesses and counterexamples
-/

/-- Oracle where every model call succeeds with a calm answer. -/
def calmOracle : ModelOracle :=
  ⟨Except.ok (1/10), Except.ok 0, Except.ok (1/10), Except.ok 0⟩

/-- Oracle whose primary (XGBoost) calls raise. -/
def xgbRaisesOracle : ModelOracle :=
  ⟨Except.error "xgb down", Except.error "xgb down", Except.ok (1/10), Except.ok 0⟩

/-- Oracle whose primary model is alarmed and whose secondary
(random-forest) call raises. -/
def rfRaisesOracle : ModelOracle :=
  ⟨Except.ok (17/20), Except.ok 1, Except.error "rf down", Except.ok 1⟩

/-- A request in an active state with a strong negative drift. -/
def drifting : SensorData :=
  { pressure := 7/2, drift := -(6/100), r2 := 19/20, temp := 900,
    scan_speed := 10, machine_state := "QUENCH" }

/-- A request with offline-level pressure and an out-of-set state label. -/
def offlineHeating : SensorData :=
  { pressure := 1/5, drift := 0, r2 := 1, temp := 850, scan_speed := 10,
    machine_state := "HEATING" }

/-- The same offline-level pressure with an active state label. -/
def offlineQuench : SensorData := { offlineHeating with machine_state := "QUENCH" }

/-- An out-of-set state with standby-level pressure (end-to-end scenario D). -/
def standbyHeating : SensorData :=
  { pressure := 3/10, drift := 0, r2 := 0, temp := 200, scan_speed := 0,
    machine_state := "HEATING" }

/-- An out-of-set state with active-level pressure (the gate bypass). -/
def pressuredHeating : SensorData :=
  { pressure := 3, drift := 0, r2 := 1, temp := 900, scan_speed := 10,
    machine_state := "HEATING" }

/-!
## Theorems
-/

/-- The drift-risk curve is antitone: a more negative drift velocity never
yields a smaller drift risk. -/
theorem driftRisk_anti {d1 d2 : ℚ} (h : d1 ≤ d2) : driftRisk d2 ≤ driftRisk d1 := by
  unfold driftRisk
  rcases abs_cases d1 with ⟨e1, f1⟩ | ⟨e1, f1⟩ <;>
    rcases abs_cases d2 with ⟨e2, f2⟩ | ⟨e2, f2⟩ <;>
      rw [e1, e2] <;> split_ifs <;> linarith

/-- C4: after the deadband, `drift_risk` is the piecewise-linear function of
drift velocity the spec describes (0 above -0.01, interpolated 0.0→0.5 on
[-0.05, -0.01), interpolated 0.5→1.0 on [-0.10, -0.05), 1 below -0.10), and
the blended risk equals `max(p, 0.8*drift_risk + 0.2*p)`. -/
theorem C4_drift_risk_curve_and_blend (d p : ℚ) :
    driftRisk d = specDriftRisk d ∧
    blendedRisk p d = max p ((8/10) * driftRisk d + (2/10) * p) := by
  constructor
  · unfold driftRisk specDriftRisk lerp
    split_ifs with h1 h2 h3
    · rfl
    · rw [abs_of_neg (show d < 0 by linarith)]; ring
    · rw [abs_of_neg (show d < 0 by linarith)]; ring
    · rfl
  · unfold blendedRisk
    rw [show driftRisk d * (8/10) + p * (2/10) = (8/10) * driftRisk d + (2/10) * p from by ring]

/-- C5: holding the primary classifier probability fixed, the blended risk
is monotonically non-decreasing as drift velocity decreases (more
negative). -/
theorem C5_blended_risk_antitone_in_drift (p d1 d2 : ℚ) (h : d1 ≤ d2) :
    blendedRisk p d2 ≤ blendedRisk p d1 := by
  unfold blendedRisk
  have hd := driftRisk_anti h
  exact max_le_max le_rfl (by linarith)

/-- Witness for C5 at a concrete pair of drift velocities. -/
theorem C5_blended_risk_antitone_in_drift_witness :
    (-(6/100) : ℚ) ≤ 0 ∧ blendedRisk (1/10) 0 ≤ blendedRisk (1/10) (-(6/100)) :=
  ⟨by norm_num, C5_blended_risk_antitone_in_drift (1/10) (-(6/100)) 0 (by norm_num)⟩

/-- C1: for every request that passes both guardrails and whose primary
inference succeeds with probability `p`, the blended risk
`b = blendedRisk p (deadband drift)` is classified into bands: `b < 0.4` →
OPTIMAL (rca NONE, risk `b`); `0.4 ≤ b < 0.8` → WARNING (rca EARLY_DRIFT,
risk `b`); `b ≥ 0.8` → the secondary model is consulted, and the result is
CRITICAL_FAILURE (rca DRIFT_CONFIRMED, risk `max b rf_prob`) exactly when
the secondary predicts failure or `b > 0.9`, WARNING (rca EARLY_DRIFT,
risk `b`) otherwise. -/
theorem C1_blended_risk_banding (data : SensorData) (m : ModelOracle) (p : ℚ) (q : ℤ)
    (hgate : normalizeState data.machine_state ∈ valid_states ∨ 1 ≤ data.pressure)
    (hpress : 1/2 ≤ data.pressure)
    (hprob : m.xgbProb = Except.ok p) (hpred : m.xgbPred = Except.ok q) :
    (blendedRisk p (deadband data.drift) < 2/5 →
      predict_health data m = .ok
        { status := "OPTIMAL", risk_score := blendedRisk p (deadband data.drift),
          rca := some "NONE", drift_velocity := some (deadband data.drift) }) ∧
    (2/5 ≤ blendedRisk p (deadband data.drift) →
      blendedRisk p (deadband data.drift) < 4/5 →
      predict_health data m = .ok
        { status := "WARNING", risk_score := blendedRisk p (deadband data.drift),
          rca := some "EARLY_DRIFT", drift_velocity := some (deadband data.drift) }) ∧
    (∀ rp : ℚ, ∀ rq : ℤ, 4/5 ≤ blendedRisk p (deadband data.drift) →
      m.rfProb = Except.ok rp → m.rfPred = Except.ok rq →
      ((rq = 1 ∨ 9/10 < blendedRisk p (deadband data.drift)) →
        predict_health data m = .ok
          { status := "CRITICAL_FAILURE",
            risk_score := max (blendedRisk p (deadband data.drift)) rp,
            rca := some "DRIFT_CONFIRMED", drift_velocity := some (deadband data.drift) }) ∧
      (rq ≠ 1 → blendedRisk p (deadband data.drift) ≤ 9/10 →
        predict_health data m = .ok
          { status := "WARNING", risk_score := blendedRisk p (deadband data.drift),
            rca := some "EARLY_DRIFT", drift_velocity := some (deadband data.drift) })) := by
  have hg1 : ¬(normalizeState data.machine_state ∉ valid_states ∧ data.pressure < 1) := by
    rcases hgate with h | h
    · exact fun hc => hc.1 h
    · exact fun hc => absurd hc.2 (not_lt.mpr h)
  have hg2 : ¬(data.pressure < 1/2) := not_lt.mpr hpress
  refine ⟨?_, ?_, ?_⟩
  · intro hband
    simp only [predict_health, hprob, hpred]
    rw [if_neg hg1, if_neg hg2, if_pos hband]
  · intro h1 h2
    simp only [predict_health, hprob, hpred]
    rw [if_neg hg1, if_neg hg2, if_neg (not_lt.mpr h1), if_pos h2]
  · intro rp rq hband hrp hrq
    have hn1 : ¬(blendedRisk p (deadband data.drift) < 2/5) := by
      intro hc; linarith
    have hn2 : ¬(blendedRisk p (deadband data.drift) < 4/5) := not_lt.mpr hband
    constructor
    · intro hc
      simp only [predict_health, hprob, hpred, hrp, hrq]
      rw [if_neg hg1, if_neg hg2, if_neg hn1, if_neg hn2, if_pos hc]
    · intro hne hle
      have hc : ¬(rq = 1 ∨ 9/10 < blendedRisk p (deadband data.drift)) := by
        rintro (h | h)
        · exact hne h
        · linarith
      simp only [predict_health, hprob, hpred, hrp, hrq]
      rw [if_neg hg1, if_neg hg2, if_neg hn1, if_neg hn2, if_neg hc]

/-- Witness for C1: the drifting request with a calm primary probability
falls in the WARNING band. -/
theorem C1_blended_risk_banding_witness :
    ((2:ℚ)/5 ≤ blendedRisk (1/10) (deadband drifting.drift) ∧
      blendedRisk (1/10) (deadband drifting.drift) < 4/5) ∧
    predict_health drifting calmOracle = .ok
      { status := "WARNING", risk_score := blendedRisk (1/10) (deadband drifting.drift),
        rca := some "EARLY_DRIFT", drift_velocity := some (deadband drifting.drift) } :=
  have h1 : (2:ℚ)/5 ≤ blendedRisk (1/10) (deadband drifting.drift) := by
    norm_num [drifting, blendedRisk, driftRisk, deadband, abs]
  have h2 : blendedRisk (1/10) (deadband drifting.drift) < 4/5 := by
    norm_num [drifting, blendedRisk, driftRisk, deadband, abs]
  ⟨⟨h1, h2⟩,
    (C1_blended_risk_banding drifting calmOracle (1/10) 0
      (Or.inl (by decide)) (by norm_num [drifting]) rfl rfl).2.1 h1 h2⟩

/-- C2 counterexample: at raw pressure 0.2 with machine_state "HEATING"
(out of the active set), guardrail 1 fires first and the engine returns
STANDBY, not OFFLINE — so the verdict is not independent of
`machine_state`. -/
theorem C2_offline_counterexample :
    predict_health offlineHeating calmOracle
      = .ok { status := "STANDBY", risk_score := 0, confidence := some 0 } ∧
    "STANDBY" ≠ "OFFLINE" := by
  constructor
  · norm_num [predict_health, normalizeState, valid_states, offlineHeating]
    decide
  · decide

/-- C2 amended: for raw pressure below the 0.5 floor, the engine returns
OFFLINE with risk 0.99 and confidence 0.0 whenever the normalized
machine_state lies in the active set; with an out-of-set state, guardrail 1
takes precedence (pressure < 0.5 < 1.0) and the result is STANDBY. -/
theorem C2_offline_band (data : SensorData) (m : ModelOracle)
    (hp : data.pressure < 1/2) :
    (normalizeState data.machine_state ∈ valid_states →
      predict_health data m
        = .ok { status := "OFFLINE", risk_score := 99/100, confidence := some 0 }) ∧
    (normalizeState data.machine_state ∉ valid_states →
      predict_health data m
        = .ok { status := "STANDBY", risk_score := 0, confidence := some 0 }) := by
  constructor
  · intro hs
    simp only [predict_health]
    rw [if_neg (fun hc => hc.1 hs), if_pos hp]
  · intro hs
    simp only [predict_health]
    rw [if_pos ⟨hs, by linarith⟩]

/-- Witness for C2 (amended) at pressure 0.2 in state "QUENCH". -/
theorem C2_offline_band_witness :
    offlineQuench.pressure < 1/2 ∧
    predict_health offlineQuench calmOracle
      = .ok { status := "OFFLINE", risk_score := 99/100, confidence := some 0 } :=
  ⟨by norm_num [offlineQuench, offlineHeating],
    (C2_offline_band offlineQuench calmOracle
      (by norm_num [offlineQuench, offlineHeating])).1 (by decide)⟩

/-- C3 counterexample: on a request that escalates to the secondary model,
an error raised by the secondary call is NOT returned as the structured
error result — the exception escapes `predict_health` unhandled. -/
theorem C3_secondary_error_counterexample :
    predict_health drifting rfRaisesOracle = .raised "rf down" ∧
    (predict_health drifting rfRaisesOracle).isErrorResult = false := by
  constructor
  · norm_num [predict_health, normalizeState, valid_states, drifting,
      rfRaisesOracle, deadband, driftRisk, blendedRisk, abs]
  · norm_num [predict_health, normalizeState, valid_states, drifting,
      rfRaisesOracle, deadband, driftRisk, blendedRisk, abs, ApiResult.isErrorResult]

/-- C3 amended: an error from the primary classifier is returned to the
caller as the explicit structured error result; an error from the secondary
classifier propagates out of the engine as an unhandled exception.  In
neither case is the failure mapped to a default verdict status. -/
theorem C3_inference_error_semantics (data : SensorData) (m : ModelOracle) (e : String)
    (hgate : normalizeState data.machine_state ∈ valid_states ∨ 1 ≤ data.pressure)
    (hpress : 1/2 ≤ data.pressure) :
    (m.xgbProb = Except.error e →
      predict_health data m = .errorResult ("Inference Failed: " ++ e)) ∧
    (∀ p : ℚ, m.xgbProb = Except.ok p → m.xgbPred = Except.error e →
      predict_health data m = .errorResult ("Inference Failed: " ++ e)) ∧
    (∀ p : ℚ, ∀ q : ℤ, m.xgbProb = Except.ok p → m.xgbPred = Except.ok q →
      4/5 ≤ blendedRisk p (deadband data.drift) →
      m.rfProb = Except.error e → predict_health data m = .raised e) ∧
    (∀ p rp : ℚ, ∀ q : ℤ, m.xgbProb = Except.ok p → m.xgbPred = Except.ok q →
      4/5 ≤ blendedRisk p (deadband data.drift) →
      m.rfProb = Except.ok rp → m.rfPred = Except.error e →
      predict_health data m = .raised e) := by
  have hg1 : ¬(normalizeState data.machine_state ∉ valid_states ∧ data.pressure < 1) := by
    rcases hgate with h | h
    · exact fun hc => hc.1 h
    · exact fun hc => absurd hc.2 (not_lt.mpr h)
  have hg2 : ¬(data.pressure < 1/2) := not_lt.mpr hpress
  refine ⟨?_, ?_, ?_, ?_⟩
  · intro hx
    simp only [predict_health, hx]
    rw [if_neg hg1, if_neg hg2]
  · intro p hx hy
    simp only [predict_health, hx, hy]
    rw [if_neg hg1, if_neg hg2]
  · intro p q hx hy hb hrp
    have hn1 : ¬(blendedRisk p (deadband data.drift) < 2/5) := by intro hc; linarith
    simp only [predict_health, hx, hy, hrp]
    rw [if_neg hg1, if_neg hg2, if_neg hn1, if_neg (not_lt.mpr hb)]
  · intro p rp q hx hy hb hrp hrq
    have hn1 : ¬(blendedRisk p (deadband data.drift) < 2/5) := by intro hc; linarith
    simp only [predict_health, hx, hy, hrp, hrq]
    rw [if_neg hg1, if_neg hg2, if_neg hn1, if_neg (not_lt.mpr hb)]

/-- Witness for C3 (amended): a primary failure returns the structured
error result, and a secondary failure on the drifting request escapes as a
raised exception. -/
theorem C3_inference_error_semantics_witness :
    predict_health drifting xgbRaisesOracle
      = .errorResult ("Inference Failed: " ++ "xgb down") ∧
    predict_health drifting rfRaisesOracle = .raised "rf down" :=
  ⟨(C3_inference_error_semantics drifting xgbRaisesOracle "xgb down"
      (Or.inl (by decide)) (by norm_num [drifting])).1 rfl,
    ((C3_inference_error_semantics drifting rfRaisesOracle "rf down"
      (Or.inl (by decide)) (by norm_num [drifting])).2.2.1 (17/20) 1 rfl rfl
      (by norm_num [drifting, blendedRisk, driftRisk, deadband, abs]) rfl)⟩

/-- C6: a normalized machine_state outside the active set returns STANDBY
with risk 0.0 when pressure is below 1.0; with pressure at least 1.0 the
gate is bypassed and the request is evaluated exactly as if the machine
were in an active state. -/
theorem C6_standby_gate (data : SensorData) (m : ModelOracle)
    (hs : normalizeState data.machine_state ∉ valid_states) :
    (data.pressure < 1 →
      predict_health data m
        = .ok { status := "STANDBY", risk_score := 0, confidence := some 0 }) ∧
    (1 ≤ data.pressure →
      predict_health data m
        = predict_health { data with machine_state := "QUENCH" } m) := by
  constructor
  · intro hp
    simp only [predict_health]
    rw [if_pos ⟨hs, hp⟩]
  · intro hp
    simp only [predict_health]
    rw [if_neg (fun hc : _ ∧ data.pressure < 1 => absurd hc.2 (not_lt.mpr hp)),
      if_neg (fun hc : normalizeState "QUENCH" ∉ valid_states ∧ _ => hc.1 (by decide))]

/-- Witness for C6: scenario-D standby and the high-pressure bypass. -/
theorem C6_standby_gate_witness :
    (standbyHeating.pressure < 1 ∧
      predict_health standbyHeating calmOracle
        = .ok { status := "STANDBY", risk_score := 0, confidence := some 0 }) ∧
    (1 ≤ pressuredHeating.pressure ∧
      predict_health pressuredHeating calmOracle
        = predict_health { pressuredHeating with machine_state := "QUENCH" } calmOracle) :=
  ⟨⟨by norm_num [standbyHeating],
    (C6_standby_gate standbyHeating calmOracle (by decide)).1
      (by norm_num [standbyHeating])⟩,
   ⟨by norm_num [pressuredHeating],
    (C6_standby_gate pressuredHeating calmOracle (by decide)).2
      (by norm_num [pressuredHeating])⟩⟩

/-- C10: whenever `predict_health` returns a verdict that carries a
`drift_velocity` field (exactly the risk-banding outcomes), that field is
the post-deadband drift value used for the risk computation; in particular
a submitted drift with `|drift| < 0.005` is reported as 0. -/
theorem C10_verdict_reports_deadbanded_drift (data : SensorData) (m : ModelOracle)
    (v : Verdict) (h : predict_health data m = .ok v) (hv : v.drift_velocity ≠ none) :
    v.drift_velocity = some (deadband data.drift) ∧
    (|data.drift| < 5/1000 → v.drift_velocity = some 0) := by
  have hdb : |data.drift| < 5/1000 → deadband data.drift = 0 := fun hlt => if_pos hlt
  suffices hsuf : v.drift_velocity = some (deadband data.drift) by
    exact ⟨hsuf, fun hlt => by rw [hsuf, hdb hlt]⟩
  revert h
  simp only [predict_health]
  cases hx : m.xgbProb with
  | error e =>
    split_ifs <;> intro h
    · injection h with h2; subst h2; exact absurd rfl hv
    · injection h with h2; subst h2; exact absurd rfl hv
    · exact h.elim
  | ok p =>
    cases hy : m.xgbPred with
    | error e =>
      split_ifs <;> intro h
      · injection h with h2; subst h2; exact absurd rfl hv
      · injection h with h2; subst h2; exact absurd rfl hv
      · exact h.elim
    | ok q =>
      dsimp only
      cases hrp : m.rfProb with
      | error e =>
        split_ifs <;> intro h
        all_goals (first
          | exact h.elim
          | (injection h with h2; subst h2; first | rfl | exact absurd rfl hv))
      | ok rp =>
        cases hrq : m.rfPred with
        | error e =>
          split_ifs <;> intro h
          all_goals (first
            | exact h.elim
            | (injection h with h2; subst h2; first | rfl | exact absurd rfl hv))
        | ok rq =>
          dsimp only
          split_ifs <;> intro h
          all_goals (first
            | exact h.elim
            | (injection h with h2; subst h2; first | rfl | exact absurd rfl hv))

/-- Witness for C10: a jitter-level drift of 0.004 is reported as 0 in the
OPTIMAL verdict. -/
theorem C10_verdict_reports_deadbanded_drift_witness :
    (Verdict.mk "OPTIMAL" (1/10) none (some "NONE") (some 0)).drift_velocity
      = some (deadband ((4:ℚ)/1000)) ∧
    ((|(4:ℚ)/1000| < 5/1000) →
      (Verdict.mk "OPTIMAL" (1/10) none (some "NONE") (some 0)).drift_velocity = some 0) :=
  C10_verdict_reports_deadbanded_drift { drifting with drift := 4/1000 } calmOracle
    (Verdict.mk "OPTIMAL" (1/10) none (some "NONE") (some 0))
    (by norm_num [predict_health, normalizeState, valid_states, drifting, calmOracle,
        deadband, driftRisk, blendedRisk, abs])
    (by simp)

/-- Sum of a list all of whose elements equal `c`. -/
theorem listSum_const {c : ℚ} : ∀ {xs : List ℚ},
    (∀ x ∈ xs, x = c) → xs.sum = xs.length * c := by
  intro xs
  induction xs with
  | nil => intro _; simp
  | cons a t ih =>
    intro h
    have ha : a = c := h a (List.mem_cons_self a t)
    have ht := ih (fun x hx => h x (List.mem_cons_of_mem a hx))
    simp [ha, ht]
    ring

/-- The population variance of a nonempty constant list is zero. -/
theorem npVar_const {c : ℚ} {xs : List ℚ} (hne : xs ≠ []) (h : ∀ x ∈ xs, x = c) :
    npVar xs = 0 := by
  have hlen : (xs.length : ℚ) ≠ 0 := by
    simpa using fun hc => hne (List.length_eq_zero.mp hc)
  have hmean : listMean xs = c := by
    unfold listMean
    rw [listSum_const h, mul_comm, mul_div_assoc, div_self hlen, mul_one]
  unfold npVar
  rw [hmean]
  have hz : ∀ y ∈ xs.map (fun x => (x - c) ^ 2), y = 0 := by
    intro y hy
    rcases List.mem_map.mp hy with ⟨x, hx, rfl⟩
    rw [h x hx]; ring
  rw [listSum_const hz]
  simp

/-- C7: the feature engine returns the safe default `(drift 0.0, r² 1.0)`
for every window with fewer than 5 samples, for every window of at least 5
samples whose pressure variance is below the fixed epsilon 0.0001, and in
particular for every window of at least 5 samples whose pressure values are
all identical. -/
theorem C7_window_safe_defaults (history : List (ℚ × ℚ)) :
    (history.length < 5 → calculate_features history = (0, 1)) ∧
    (5 ≤ history.length → npVar (history.map Prod.snd) < 1/10000 →
      calculate_features history = (0, 1)) ∧
    (∀ c : ℚ, 5 ≤ history.length → (∀ s ∈ history, s.2 = c) →
      calculate_features history = (0, 1)) := by
  refine ⟨?_, ?_, ?_⟩
  · intro h
    unfold calculate_features
    rw [if_pos h]
  · intro h hv
    unfold calculate_features
    rw [if_neg (not_lt.mpr h)]
    dsimp only
    rw [if_pos hv]
  · intro c h hc
    have hne : history.map Prod.snd ≠ [] := by
      intro he
      rw [List.map_eq_nil_iff] at he
      rw [he] at h
      simp at h
    have hv : npVar (history.map Prod.snd) = 0 := by
      refine npVar_const (c := c) hne ?_
      intro x hx
      rcases List.mem_map.mp hx with ⟨s, hs, rfl⟩
      exact hc s hs
    unfold calculate_features
    rw [if_neg (not_lt.mpr h)]
    dsimp only
    rw [if_pos (by rw [hv]; norm_num)]

/-- Witness for C7: a short window, a low-variance window of five samples,
and a constant window of five samples. -/
theorem C7_window_safe_defaults_witness :
    calculate_features [(0, 2), (1, 2), (2, 2)] = (0, 1) ∧
    calculate_features [(0, 1), (60, 1), (120, 1), (180, 1), (240, 1001/1000)] = (0, 1) ∧
    calculate_features [(0, 3), (1, 3), (2, 3), (3, 3), (4, 3)] = (0, 1) :=
  ⟨(C7_window_safe_defaults _).1 (by norm_num),
   (C7_window_safe_defaults _).2.1 (by norm_num) (by norm_num [npVar, listMean]),
   (C7_window_safe_defaults _).2.2 3 (by norm_num) (by simp)⟩

/-- C8, evaluated at the failing input: on a store missing the feature
columns, the feature write performs the schema upgrade, retries, and the
row is persisted; but on a store missing the verdict columns, the verdict
write only adds the columns and does NOT retry the `UPDATE` — that row's
verdict is never persisted (it would be, were the columns present). -/
theorem C8_verdict_write_not_retried :
    (featureWrite ⟨false, false, [], []⟩ 7 (-(6/100)) (19/20)).featureRows
        = [(7, -(6/100), 19/20)] ∧
    (featureWrite ⟨false, false, [], []⟩ 7 (-(6/100)) (19/20)).hasFeatureCols = true ∧
    (verdictWrite ⟨true, false, [], []⟩ 7 (17/20) "WARNING" (-(6/100)) (19/20)).hasVerdictCols
        = true ∧
    (verdictWrite ⟨true, false, [], []⟩ 7 (17/20) "WARNING" (-(6/100)) (19/20)).verdictRows
        = [] ∧
    (verdictWrite ⟨true, true, [], []⟩ 7 (17/20) "WARNING" (-(6/100)) (19/20)).verdictRows
        = [(7, 17/20, "WARNING")] := by
  refine ⟨?_, ?_, ?_, ?_, ?_⟩ <;> simp [featureWrite, verdictWrite]

/-- Processing a batch leaves the cursor unchanged or moves it to one of
the batch's ids. -/
theorem runBatch_eq_or_mem : ∀ (cursor : ℤ) (batch : List ℤ),
    runBatch cursor batch = cursor ∨ runBatch cursor batch ∈ batch
  | _, [] => Or.inl rfl
  | cursor, a :: t => by
    have h := runBatch_eq_or_mem a t
    unfold runBatch at h ⊢
    simp only [List.foldl_cons]
    rcases h with h | h
    · exact Or.inr (by rw [h]; exact List.mem_cons_self a t)
    · exact Or.inr (List.mem_cons_of_mem a h)

/-- Every fetched row id lies strictly beyond the cursor
(`WHERE id > ?`). -/
theorem mem_fetchBatch {ids : List ℤ} {cursor i : ℤ} (h : i ∈ fetchBatch ids cursor) :
    cursor < i := by
  unfold fetchBatch at h
  have h1 := List.take_subset _ _ h
  rw [List.mem_insertionSort] at h1
  have h2 := (List.mem_filter.mp h1).2
  exact of_decide_eq_true h2

/-- Every id processed during a run lies strictly beyond the starting
cursor. -/
theorem runPolls_mem_gt : ∀ (polls : List (List ℤ)) (cursor i : ℤ),
    i ∈ (runPolls cursor polls).1 → cursor < i
  | [], _, _, h => absurd h (List.not_mem_nil _)
  | ids :: rest, cursor, i, h => by
    unfold runPolls at h
    dsimp only at h
    rcases List.mem_append.mp h with hb | hr
    · exact mem_fetchBatch hb
    · have hrec := runPolls_mem_gt rest (runBatch cursor (fetchBatch ids cursor)) i hr
      rcases runBatch_eq_or_mem cursor (fetchBatch ids cursor) with he | hm
      · rwa [he] at hrec
      · exact lt_trans (mem_fetchBatch hm) hrec

/-- C9: when the startup backlog exceeds the threshold 1000, the cursor
resumes at the newest available id and no sample with id strictly between
the old resume point and that newest id is ever processed by the
instance. -/
theorem C9_lag_skip (old maxId : ℤ) (polls : List (List ℤ))
    (hlag : maxId - old > 1000) :
    resumeCursor old maxId = maxId ∧
    ∀ i ∈ (runPolls (resumeCursor old maxId) polls).1, ¬(old < i ∧ i < maxId) := by
  have hc : resumeCursor old maxId = maxId := if_pos hlag
  refine ⟨hc, ?_⟩
  rw [hc]
  rintro i hi ⟨_, hlt⟩
  exact absurd (runPolls_mem_gt polls maxId i hi) (not_lt.mpr (le_of_lt hlt))

/-- Witness for C9 with a 2000-row backlog and one poll: the cursor jumps
to 2000 and the processed id 2001 is not in the skipped gap. -/
theorem C9_lag_skip_witness :
    ((2000:ℤ) - 0 > 1000) ∧ resumeCursor 0 2000 = 2000 ∧
    ¬((0:ℤ) < 2001 ∧ (2001:ℤ) < 2000) :=
  ⟨by norm_num,
   (C9_lag_skip 0 2000 [[1500, 2001]] (by norm_num)).1,
   (C9_lag_skip 0 2000 [[1500, 2001]] (by norm_num)).2 2001 (by decide)⟩

end PdmAI
